/-
Verification of the HallwayDisplay coordinator, device-control layer and
schedule evaluator against their natural-language specification.

The Python modules are shallowly embedded as Lean functions:
  * `MonitorScheduler.is_scheduled_on` / `_is_time_between` / `_scheduler_loop`
    (modules/scheduler.py) become pure functions over a `SchedulerConfig` and
    a fold over the list of poll results;
  * `MonitorController` (modules/monitor.py) becomes a record of its cached
    fields (`last_brightness_set`, `last_power_state_set`, `monitor_is_off`)
    with `set_power` / `set_brightness` / `get_power_state` / `is_on`
    as state-passing functions.  Hardware outcomes (success of each ddcutil
    attempt, the fallback chain, the power query) are inputs, bundled in `Hw`;
    every hardware command a call issues is recorded in a trace of `Act`s;
  * `DisplayController` (modules/display.py) becomes its `current_display`
    cache with `switch_to_dakboard` / `switch_to_homeassistant` /
    `handle_touch`;
  * the `HallwayDisplay` coordinator handlers (main.py) become functions on a
    `SysState`, returning the mutated state, the trace of hardware/window
    commands issued, and a flag recording whether a Python exception
    (`TypeError` from comparing `None` with an int) escaped the handler.

Python floats are modelled as `ℚ`, Python `int()` truncation as `pyInt`,
Python truthiness of `None`/`False`/`True` as `pyTruthy` and truthiness of
the strings returned by `get_power_state` as inequality with `""`.
-/
import Mathlib

namespace HallwayDisplay

/-! ### Settings (config/settings.py)

Times of day are minutes since midnight; `"06:00"` parses to 360, etc. -/

def POWER_STATE_ON : String := "1"
def POWER_STATE_OFF : String := "4"
def MIN_BRIGHTNESS : ℤ := 10
def MAX_BRIGHTNESS : ℤ := 90
def MOTION_TIMEOUT : ℚ := 180

/-! ### Schedule evaluator (modules/scheduler.py) -/

/-- The six parsed schedule times (`_parse_time_settings`), as minutes since
midnight.  Kept abstract so the window-membership theorems hold for any
configured windows. -/
structure SchedulerConfig where
  weekday_morning_on_start : Nat
  weekday_morning_on_end : Nat
  weekday_evening_on_start : Nat
  weekday_evening_on_end : Nat
  weekend_on_start : Nat
  weekend_on_end : Nat
deriving DecidableEq

/-- The schedule windows of config/settings.py. -/
def settingsConfig : SchedulerConfig where
  weekday_morning_on_start := 360
  weekday_morning_on_end := 480
  weekday_evening_on_start := 1020
  weekday_evening_on_end := 1380
  weekend_on_start := 480
  weekend_on_end := 1380

/-- `MonitorScheduler._is_time_between` (scheduler.py:114-129). -/
def is_time_between (current_time start_time end_time : Nat) : Bool :=
  if start_time < end_time then
    decide (start_time ≤ current_time ∧ current_time < end_time)
  else
    decide (start_time ≤ current_time ∨ current_time < end_time)

/-- `MonitorScheduler.is_scheduled_on` (scheduler.py:88-112), as a pure
function of the wall clock: `weekday` is Python's `datetime.weekday()`
(0 = Monday .. 6 = Sunday) and `t` the time of day. -/
def is_scheduled_on (cfg : SchedulerConfig) (weekday t : Nat) : Bool :=
  if 5 ≤ weekday then
    is_time_between t cfg.weekend_on_start cfg.weekend_on_end
  else
    is_time_between t cfg.weekday_morning_on_start cfg.weekday_morning_on_end
      || is_time_between t cfg.weekday_evening_on_start cfg.weekday_evening_on_end

/-- Window membership exactly as the spec words it: with `start < end` the
window contains `t` iff `start ≤ t < end`; with `start ≥ end` (wrapping
midnight) iff `t ≥ start ∨ t < end`. -/
def specWindowContains (start_time end_time t : Nat) : Prop :=
  if start_time < end_time then start_time ≤ t ∧ t < end_time
  else t ≥ start_time ∨ t < end_time

/-- The schedule as the spec words it: Saturday (5) and Sunday (6) use the
single weekend window, Monday–Friday the morning-or-evening windows. -/
def specScheduledOn (cfg : SchedulerConfig) (weekday t : Nat) : Prop :=
  if weekday = 5 ∨ weekday = 6 then
    specWindowContains cfg.weekend_on_start cfg.weekend_on_end t
  else
    specWindowContains cfg.weekday_morning_on_start cfg.weekday_morning_on_end t
      ∨ specWindowContains cfg.weekday_evening_on_start cfg.weekday_evening_on_end t

/-- One iteration of `MonitorScheduler._scheduler_loop` (scheduler.py:157-175):
given the cached `current_state` (initially `None`) and the fresh poll result,
returns the updated cache and whether `state_change_callback` was invoked. -/
def scheduler_poll (current_state : Option Bool) (should_be_on : Bool) :
    Option Bool × Bool :=
  if some should_be_on ≠ current_state then (some should_be_on, true)
  else (current_state, false)

/-- The scheduler loop over a finite list of poll results: the list of
"callback fired" flags, one per poll. -/
def scheduler_flags : Option Bool → List Bool → List Bool
  | _, [] => []
  | current_state, r :: rs =>
    let p := scheduler_poll current_state r
    p.2 :: scheduler_flags p.1 rs

theorem scheduler_flags_cons (current_state : Option Bool) (r : Bool) (rs : List Bool) :
    scheduler_flags current_state (r :: rs) =
      decide (some r ≠ current_state) :: scheduler_flags (some r) rs := by
  by_cases h : some r = current_state
  · subst h; simp [scheduler_flags, scheduler_poll]
  · simp [scheduler_flags, scheduler_poll, h]

theorem scheduler_flags_length (current_state : Option Bool) (rs : List Bool) :
    (scheduler_flags current_state rs).length = rs.length := by
  induction rs generalizing current_state with
  | nil => rfl
  | cons r rs ih => rw [scheduler_flags_cons]; simp [ih]

theorem is_time_between_iff (t start_time end_time : Nat) :
    is_time_between t start_time end_time = true ↔
      specWindowContains start_time end_time t := by
  unfold is_time_between specWindowContains
  split <;> simp

/-- C1: for every wall-clock timestamp (weekday 0–6, time of day `t`), the
code's `is_scheduled_on` agrees with the spec's schedule: weekends
(Saturday/Sunday) use the single weekend window, weekdays the morning or the
evening window, with the half-open / midnight-wrapping membership test. -/
theorem is_scheduled_on_correct (cfg : SchedulerConfig) (weekday t : Nat)
    (h : weekday < 7) :
    is_scheduled_on cfg weekday t = true ↔ specScheduledOn cfg weekday t := by
  unfold is_scheduled_on specScheduledOn
  by_cases h5 : 5 ≤ weekday
  · rw [if_pos h5, if_pos (show weekday = 5 ∨ weekday = 6 by omega)]
    exact is_time_between_iff ..
  · rw [if_neg h5, if_neg (show ¬(weekday = 5 ∨ weekday = 6) by omega)]
    simp [is_time_between_iff]

/-- C1 witness: Wednesday (weekday 2) at 07:00 (420 minutes) with the settings
windows is inside the morning window, and the code agrees with the spec there. -/
theorem is_scheduled_on_correct_witness :
    (2 : Nat) < 7 ∧
      (is_scheduled_on settingsConfig 2 420 = true ↔ specScheduledOn settingsConfig 2 420) ∧
      is_scheduled_on settingsConfig 2 420 = true :=
  ⟨by decide, is_scheduled_on_correct settingsConfig 2 420 (by decide), by decide⟩

/-- C9: in the scheduler loop, for every pair of consecutive polls the
state-change callback fires on the later poll exactly when its
`is_scheduled_on` result differs from the previous poll's result (the cached
`current_state` then equals the previous result), and never when it is equal. -/
theorem schedule_change_edge_triggered (current_state : Option Bool)
    (rs : List Bool) (i : Nat) (h : i + 1 < rs.length) :
    (scheduler_flags current_state rs).getD (i + 1) false =
      decide (rs.getD (i + 1) false ≠ rs.getD i false) := by
  induction rs generalizing current_state i with
  | nil => simp at h
  | cons r rs ih =>
    rw [scheduler_flags_cons]
    match i with
    | 0 =>
      match rs, h with
      | r' :: rs', _ =>
        rw [scheduler_flags_cons]
        simp
    | i + 1 =>
      have h' : i + 1 < rs.length := by simpa using h
      simpa using ih (some r) i h'

/-- C9 witness: polls `[false, true]` starting from an unknown cached state:
the second poll differs from the first, and the callback fires there. -/
theorem schedule_change_edge_triggered_witness :
    ((scheduler_flags none [false, true]).getD 1 false =
        decide (([false, true].getD 1 false) ≠ ([false, true].getD 0 false))) ∧
      (scheduler_flags none [false, true]).getD 1 false = true :=
  ⟨schedule_change_edge_triggered none [false, true] 0 (by decide), by decide⟩

/-! ### Device control layer (modules/monitor.py)

A `MonitorController` holds exactly the three cached fields of the Python
class.  `last_power_state_set` starts as the integer sentinel `-1`, which
never compares equal to a state-code string, so it is embedded as
`Option String` with `none` for the sentinel.  `monitor_is_off` starts as
`None` (unknown).  Hardware outcomes are inputs (`Hw`), and every hardware
command or window operation a call performs is recorded as an `Act`. -/

/-- Which browser window an `xdotool` operation targets. -/
inductive ViewTarget where
  | dakboard
  | homeassistant
deriving DecidableEq

/-- One externally visible command. -/
inductive Act where
  /-- `ddcutil setvcp D6 <code>` issued by one attempt of `set_power`. -/
  | ddcSetPower (code : String)
  /-- a power command issued by `_try_alternative_power_control`
  (cec-client / xset dpms / tvservice). -/
  | altPower (state : Bool)
  /-- `ddcutil setvcp 10 <value>` issued by `set_brightness`. -/
  | ddcSetBrightness (value : ℤ)
  /-- `xdotool … windowmap`/`windowraise` showing a browser window. -/
  | showWindow (target : ViewTarget)
  /-- `xdotool … windowunmap` hiding a browser window. -/
  | hideWindow (target : ViewTarget)
deriving DecidableEq

def Act.isPowerCmd : Act → Bool
  | .ddcSetPower _ => true
  | .altPower _ => true
  | _ => false

def Act.isBrightnessCmd : Act → Bool
  | .ddcSetBrightness _ => true
  | _ => false

def Act.isViewAct : Act → Bool
  | .showWindow _ => true
  | .hideWindow _ => true
  | _ => false

/-- The show of the interactive (Home Assistant) view. -/
def Act.isInteractiveShow : Act → Bool
  | .showWindow .homeassistant => true
  | _ => false

/-- Hardware environment for one event-handler run: the outcome of each
`ddcutil setvcp` power attempt in order (`ddc`, missing entries fail), whether
the alternative power-control chain succeeds (`alt`), whether the brightness
command succeeds (`bright`), the light-sensor read result (`light`, `none`
is a failed read), whether the light sensor object was initialized
(`sensorInit`), and the power-query chain result (`query`: `some true` = ON,
`some false` = OFF, `none` = every query mechanism failed). -/
structure Hw where
  ddc : List Bool
  alt : Bool
  bright : Bool
  light : Option ℚ
  sensorInit : Bool
  query : Option Bool
deriving DecidableEq

/-- The cached state of `MonitorController.__init__` (monitor.py:33-38). -/
structure MonitorController where
  last_brightness_set : ℤ
  last_power_state_set : Option String
  monitor_is_off : Option Bool
deriving DecidableEq

/-- `MonitorController()` initial state. -/
def MonitorController.init : MonitorController where
  last_brightness_set := -1
  last_power_state_set := none
  monitor_is_off := none

/-- Python truthiness of `None` / `False` / `True`. -/
def pyTruthy : Option Bool → Bool
  | some b => b
  | none => false

/-- Python `int()` applied to a float (modelled as `ℚ`): truncation toward
zero. -/
def pyInt (q : ℚ) : ℤ := if 0 ≤ q then ⌊q⌋ else ⌈q⌉

/-- The redundancy check at the top of `set_power` (monitor.py:119-124):
skip iff the requested code equals the last code set AND the cached
`monitor_is_off` is consistent with it (Python truthiness of the nested
conditions). -/
def power_skip_check (m : MonitorController) (state_code : String) : Bool :=
  (m.last_power_state_set == some state_code) &&
    ((state_code == POWER_STATE_OFF && pyTruthy m.monitor_is_off) ||
      (state_code == POWER_STATE_ON && !pyTruthy m.monitor_is_off))

/-- The `for attempt in range(retry_count + 1)` loop of `set_power`
(monitor.py:129-141): issues one `setvcp` power command per attempt, stopping
at the first success; returns the trace and whether any attempt succeeded. -/
def ddc_power_attempts (state_code : String) : Nat → List Bool → List Act × Bool
  | 0, _ => ([], false)
  | n + 1, results =>
    if results.headD false then ([Act.ddcSetPower state_code], true)
    else
      let rest := ddc_power_attempts state_code n results.tail
      (Act.ddcSetPower state_code :: rest.1, rest.2)

/-- `state_code = settings.POWER_STATE_ON if state else settings.POWER_STATE_OFF`
(monitor.py:116). -/
def stateCode (state : Bool) : String :=
  if state then POWER_STATE_ON else POWER_STATE_OFF

/-- The cache update performed by a successful power command
(monitor.py:136-140 and 146-151): record the new power state and, when
turning off, reset the brightness cache to the `-1` sentinel. -/
def power_applied (m : MonitorController) (state : Bool) : MonitorController where
  monitor_is_off := some (!state)
  last_power_state_set := some (stateCode state)
  last_brightness_set := if state then m.last_brightness_set else -1

/-- `MonitorController.set_power` (monitor.py:106-155) with the default
`retry_count = 2` (three attempts).  Returns the updated cache, the trace of
commands issued, and the success flag. -/
def set_power (m : MonitorController) (state : Bool) (hw : Hw) :
    MonitorController × List Act × Bool :=
  if power_skip_check m (stateCode state) then (m, [], true)
  else
    let ddc := ddc_power_attempts (stateCode state) 3 hw.ddc
    if ddc.2 then (power_applied m state, ddc.1, true)
    else if hw.alt then
      (power_applied m state, ddc.1 ++ [Act.altPower state], true)
    else (m, ddc.1, false)

/-- `MonitorController.set_brightness` (monitor.py:157-180): clamp to
`[0, 100]`, skip if equal to the cached last value, otherwise issue one
`setvcp` brightness command. -/
def set_brightness (m : MonitorController) (value : ℚ) (hw : Hw) :
    MonitorController × List Act × Bool :=
  let brightness : ℤ := max 0 (min 100 (pyInt value))
  if brightness == m.last_brightness_set then (m, [], true)
  else if hw.bright then
    ({ m with last_brightness_set := brightness }, [Act.ddcSetBrightness brightness], true)
  else (m, [Act.ddcSetBrightness brightness], false)

/-- `MonitorController.get_power_state` (monitor.py:181-208): the
ddcutil/xset/tvservice query chain collapsed to its result `hw.query`; a
successful query caches `monitor_is_off` (side effect of the `_get_power_state_*`
helpers), a fully failed chain falls back to the last known cached state
("OFF" if `monitor_is_off` is truthy, "ON" if it is `False`, `None` if it is
`None`). -/
def get_power_state (m : MonitorController) (hw : Hw) :
    MonitorController × Option String :=
  match hw.query with
  | some true => ({ m with monitor_is_off := some false }, some "ON")
  | some false => ({ m with monitor_is_off := some true }, some "OFF")
  | none =>
    (m, if pyTruthy m.monitor_is_off then some "OFF"
        else if m.monitor_is_off ≠ none then some "ON" else none)

/-- `MonitorController.is_on` (monitor.py:416-427) as its callers use it, in
boolean context: when `monitor_is_off` is unknown it returns
`state if state is not None else False` where `state` is the *string* from
`get_power_state`; the caller's `if` then takes the truthiness of that string
(any non-empty string, including `"OFF"`, is truthy). -/
def is_on (m : MonitorController) (hw : Hw) : MonitorController × Bool :=
  match m.monitor_is_off with
  | none =>
    let q := get_power_state m hw
    (q.1, match q.2 with
          | some s => s != ""
          | none => false)
  | some off => (m, !off)

theorem power_skip_check_applied (m : MonitorController) (state : Bool) :
    power_skip_check (power_applied m state) (stateCode state) = true := by
  cases state <;>
    simp [power_skip_check, power_applied, stateCode, pyTruthy,
      POWER_STATE_ON, POWER_STATE_OFF]

theorem set_power_skip (m : MonitorController) (state : Bool) (hw : Hw)
    (h : power_skip_check m (stateCode state) = true) :
    set_power m state hw = (m, [], true) := by
  unfold set_power
  simp [h]

theorem set_power_success_skip (m : MonitorController) (state : Bool) (hw : Hw)
    (h : (set_power m state hw).2.2 = true) :
    power_skip_check (set_power m state hw).1 (stateCode state) = true := by
  unfold set_power at h ⊢
  by_cases h1 : power_skip_check m (stateCode state)
  · simp only [h1, if_true]
  · simp only [h1, Bool.false_eq_true, if_false] at h ⊢
    by_cases h2 : (ddc_power_attempts (stateCode state) 3 hw.ddc).2
    · simpa [h2] using power_skip_check_applied m state
    · by_cases h3 : hw.alt
      · simpa [h2, h3] using power_skip_check_applied m state
      · simp [h2, h3] at h

/-- C2: once a `set_power` call has succeeded and recorded the requested state
as the last confirmed one, an immediately following `set_power` with the same
state short-circuits on the redundancy check: it issues no hardware command
(empty trace) and returns success. -/
theorem set_power_idempotent (m : MonitorController) (state : Bool) (hw hw2 : Hw)
    (h : (set_power m state hw).2.2 = true) :
    set_power (set_power m state hw).1 state hw2 =
      ((set_power m state hw).1, [], true) :=
  set_power_skip _ state hw2 (set_power_success_skip m state hw h)

/-- A hardware environment where the first ddcutil attempt succeeds. -/
def hwFirstTry : Hw where
  ddc := [true]
  alt := false
  bright := true
  light := some 5
  sensorInit := true
  query := none

/-- C2 witness: from the initial controller state, `set_power(ON)` succeeds
with exactly one hardware command, and the repeated call issues none. -/
theorem set_power_idempotent_witness :
    (set_power MonitorController.init true hwFirstTry).2.2 = true ∧
      (set_power MonitorController.init true hwFirstTry).2.1.length = 1 ∧
      set_power (set_power MonitorController.init true hwFirstTry).1 true hwFirstTry =
        ((set_power MonitorController.init true hwFirstTry).1, [], true) :=
  ⟨by decide, by decide,
    set_power_idempotent MonitorController.init true hwFirstTry hwFirstTry (by decide)⟩

/-- C10 counterexample: a successful `set_power(False)` call need not reset the
cached brightness.  Turn off (resets the cache), set brightness 50, then call
`set_power(False)` again: it is skipped by the redundancy check, returns
success, leaves `last_brightness_set = 50 ≠ -1`, and the following
`set_brightness 50` is suppressed (no hardware command). -/
theorem set_power_off_skip_keeps_brightness :
    (set_power (set_brightness
          (set_power MonitorController.init false hwFirstTry).1 50 hwFirstTry).1
        false hwFirstTry).2.2 = true ∧
      (set_power (set_brightness
          (set_power MonitorController.init false hwFirstTry).1 50 hwFirstTry).1
        false hwFirstTry).2.1 = [] ∧
      (set_power (set_brightness
          (set_power MonitorController.init false hwFirstTry).1 50 hwFirstTry).1
        false hwFirstTry).1.last_brightness_set = 50 ∧
      (set_brightness (set_power (set_brightness
            (set_power MonitorController.init false hwFirstTry).1 50 hwFirstTry).1
          false hwFirstTry).1 50 hwFirstTry).2.1 = [] := by
  decide

theorem set_brightness_after_reset (m : MonitorController)
    (hm : m.last_brightness_set = -1) (v : ℚ) (hw : Hw) :
    (set_brightness m v hw).2.1 ≠ [] := by
  unfold set_brightness
  have h0 : (0 : ℤ) ≤ max 0 (min 100 (pyInt v)) := le_max_left _ _
  have hne : (max 0 (min 100 (pyInt v)) == m.last_brightness_set) = false := by
    rw [hm, beq_eq_false_iff_ne]
    omega
  simp only [hne, Bool.false_eq_true, if_false]
  split <;> simp

/-- C10 amended: every `set_power(False)` call that actually issues a hardware
command (is not skipped by the redundancy check) and succeeds resets the cached
brightness to the `-1` sentinel, so the next `set_brightness` after such an
actual power-off always issues a hardware command. -/
theorem set_power_off_issued_resets_brightness (m : MonitorController) (hw : Hw)
    (hIssued : (set_power m false hw).2.1 ≠ [])
    (hOk : (set_power m false hw).2.2 = true) :
    (set_power m false hw).1.last_brightness_set = -1 ∧
      ∀ (v : ℚ) (hw2 : Hw), (set_brightness (set_power m false hw).1 v hw2).2.1 ≠ [] := by
  have hreset : (set_power m false hw).1.last_brightness_set = -1 := by
    unfold set_power at hIssued hOk ⊢
    by_cases h1 : power_skip_check m (stateCode false)
    · simp [h1] at hIssued
    · simp only [h1, Bool.false_eq_true, if_false] at hOk ⊢
      by_cases h2 : (ddc_power_attempts (stateCode false) 3 hw.ddc).2
      · simp [h2, power_applied]
      · by_cases h3 : hw.alt
        · simp [h2, h3, power_applied]
        · simp [h2, h3] at hOk
  exact ⟨hreset, fun v hw2 => set_brightness_after_reset _ hreset v hw2⟩

/-- C10 amended-claim witness: a real power-off from the initial state resets
the brightness cache, and a following `set_brightness 50` issues a command. -/
theorem set_power_off_issued_resets_brightness_witness :
    (set_power MonitorController.init false hwFirstTry).2.1 ≠ [] ∧
      (set_power MonitorController.init false hwFirstTry).2.2 = true ∧
      (set_power MonitorController.init false hwFirstTry).1.last_brightness_set = -1 ∧
      (set_brightness (set_power MonitorController.init false hwFirstTry).1
          50 hwFirstTry).2.1 ≠ [] :=
  ⟨by decide, by decide,
    (set_power_off_issued_resets_brightness MonitorController.init hwFirstTry
        (by decide) (by decide)).1,
    (set_power_off_issued_resets_brightness MonitorController.init hwFirstTry
        (by decide) (by decide)).2 50 hwFirstTry⟩

/-! ### View manager (modules/display.py) -/

/-- The cached fields of `DisplayController` the coordination logic reads:
`current_display` (`None` / `'dakboard'` / `'homeassistant'`) and the
interaction timestamp for the inactivity timer. -/
structure DisplayController where
  current_display : Option ViewTarget
  last_interaction_time : ℚ
deriving DecidableEq

/-- `DisplayController.switch_to_dakboard` (display.py:86-93): no-op when
DakBoard is already foreground, otherwise `_activate_dakboard` shows/raises
DakBoard and hides Home Assistant. -/
def switch_to_dakboard (d : DisplayController) : DisplayController × List Act × Bool :=
  if d.current_display == some ViewTarget.dakboard then (d, [], true)
  else
    ({ d with current_display := some ViewTarget.dakboard },
      [Act.showWindow ViewTarget.dakboard, Act.hideWindow ViewTarget.homeassistant],
      true)

/-- `DisplayController.switch_to_homeassistant` (display.py:95-103): no-op when
Home Assistant is already foreground, otherwise resets the interaction time and
`_activate_homeassistant` shows/raises Home Assistant and hides DakBoard. -/
def switch_to_homeassistant (d : DisplayController) (now : ℚ) :
    DisplayController × List Act × Bool :=
  if d.current_display == some ViewTarget.homeassistant then (d, [], true)
  else
    ({ d with
        current_display := some ViewTarget.homeassistant
        last_interaction_time := now },
      [Act.showWindow ViewTarget.homeassistant, Act.hideWindow ViewTarget.dakboard],
      true)

/-- `DisplayController.handle_touch` (display.py:105-120): record the
interaction; switch to Home Assistant when DakBoard is foreground, otherwise
only the timer reset. -/
def handle_touch (d : DisplayController) (now : ℚ) :
    DisplayController × List Act × Bool :=
  let d1 := { d with last_interaction_time := now }
  if d1.current_display == some ViewTarget.dakboard then
    switch_to_homeassistant d1 now
  else (d1, [], true)

/-! ### Coordinator (main.py)

Each event handler returns the mutated system state, the trace of hardware and
window commands it issued, and whether a Python exception escaped it
(`_adjust_brightness` raises `TypeError` when the light level is `None`,
aborting the rest of the handler). -/

/-- The coordinator-owned mutable state of `HallwayDisplay`. -/
structure SysState where
  mon : MonitorController
  disp : DisplayController
  motion_detected : Bool
  last_motion_time : ℚ
deriving DecidableEq

/-- Result of running one event handler. -/
structure StepResult where
  sys : SysState
  trace : List Act
  exn : Bool
deriving DecidableEq

/-- `SensorManager.get_light_level` (sensor.py:324-338): returns `0` when the
light-sensor object was never initialized, otherwise the result of
`BH1750Sensor.read_light`, which is `None` exactly when the read failed
(read_light returns `None` rather than raising). -/
def get_light_level (hw : Hw) : Option ℚ :=
  if hw.sensorInit then hw.light else some 0

/-- The pure brightness computation of `HallwayDisplay._adjust_brightness`
(main.py:241-249), with the settings `MIN_BRIGHTNESS = 10`,
`MAX_BRIGHTNESS = 90`. -/
def brightness_from_lux (lux : ℚ) : ℤ :=
  if lux < 10 then MIN_BRIGHTNESS
  else if lux > 1000 then MAX_BRIGHTNESS
  else
    let brightness_range : ℤ := MAX_BRIGHTNESS - MIN_BRIGHTNESS
    let light_factor : ℚ := (lux - 10) / (1000 - 10)
    MIN_BRIGHTNESS + pyInt (light_factor * (brightness_range : ℚ))

/-- `HallwayDisplay._adjust_brightness` (main.py:230-252) applied to the value
`get_light_level` produced: with `None` the comparison `light_level < 10`
raises `TypeError` before any command (third component `true`); otherwise the
computed brightness is handed to `MonitorController.set_brightness`. -/
def adjust_brightness (m : MonitorController) (light_level : Option ℚ) (hw : Hw) :
    MonitorController × List Act × Bool :=
  match light_level with
  | none => (m, [], true)
  | some lux =>
    let r := set_brightness m ((brightness_from_lux lux : ℤ) : ℚ) hw
    (r.1, r.2.1, false)

/-- `HallwayDisplay._set_monitor_state` (main.py:254-281).  Turning on: if
`is_on()` is falsy, `turn_on`, settle delay, brightness from the current light
read (a failed read raises and skips the view switch), then
`switch_to_dakboard`.  Turning off: if `is_on()` is truthy, first
`switch_to_dakboard`, then `turn_off`. -/
def set_monitor_state (s : SysState) (should_be_on : Bool) (hw : Hw) : StepResult :=
  if should_be_on then
    let chk := is_on s.mon hw
    if !chk.2 then
      let pw := set_power chk.1 true hw
      let adj := adjust_brightness pw.1 (get_light_level hw) hw
      if adj.2.2 then
        { sys := { s with mon := adj.1 }, trace := pw.2.1 ++ adj.2.1, exn := true }
      else
        let sw := switch_to_dakboard s.disp
        { sys := { s with mon := adj.1, disp := sw.1 },
          trace := pw.2.1 ++ adj.2.1 ++ sw.2.1, exn := false }
    else { sys := { s with mon := chk.1 }, trace := [], exn := false }
  else
    let chk := is_on s.mon hw
    if chk.2 then
      let sw := switch_to_dakboard s.disp
      let pw := set_power chk.1 false hw
      { sys := { s with mon := pw.1, disp := sw.1 },
        trace := sw.2.1 ++ pw.2.1, exn := false }
    else { sys := { s with mon := chk.1 }, trace := [], exn := false }

/-- `HallwayDisplay._handle_schedule_change` (main.py:198-205): forwards the
new scheduled state to `_set_monitor_state`. -/
def handle_schedule_change (s : SysState) (should_be_on : Bool) (hw : Hw) :
    StepResult :=
  set_monitor_state s should_be_on hw

/-- `HallwayDisplay._handle_motion_event` (main.py:207-216): record the motion
and its timestamp; when the monitor is off and the schedule says off, turn the
monitor on via `_set_monitor_state(True)`. -/
def handle_motion_event (s : SysState) (hw : Hw) (now : ℚ) (scheduled : Bool) :
    StepResult :=
  let s1 := { s with motion_detected := true, last_motion_time := now }
  let chk := is_on s1.mon hw
  if !chk.2 && !scheduled then
    set_monitor_state { s1 with mon := chk.1 } true hw
  else { sys := { s1 with mon := chk.1 }, trace := [], exn := false }

/-- `HallwayDisplay._handle_touch_event` (main.py:385-397): record the
interaction time; when the monitor is off, run the power-on sequence first
(an exception there aborts the handler), then forward the touch to the display
controller. -/
def handle_touch_event (s : SysState) (hw : Hw) (now : ℚ) : StepResult :=
  let s1 := { s with last_motion_time := now }
  let chk := is_on s1.mon hw
  if !chk.2 then
    let r := set_monitor_state { s1 with mon := chk.1 } true hw
    if r.exn then r
    else
      let ht := handle_touch r.sys.disp now
      { sys := { r.sys with disp := ht.1 }, trace := r.trace ++ ht.2.1, exn := false }
  else
    let ht := handle_touch s1.disp now
    { sys := { s1 with mon := chk.1, disp := ht.1 }, trace := ht.2.1, exn := false }

/-- `HallwayDisplay._handle_light_change` (main.py:218-228): adjust brightness
only when `is_on()` is truthy. -/
def handle_light_change (s : SysState) (light_level : ℚ) (hw : Hw) : StepResult :=
  let chk := is_on s.mon hw
  if chk.2 then
    let adj := adjust_brightness chk.1 (some light_level) hw
    { sys := { s with mon := adj.1 }, trace := adj.2.1, exn := adj.2.2 }
  else { sys := { s with mon := chk.1 }, trace := [], exn := false }

/-- The motion-inactivity check of `HallwayDisplay.run` (main.py:136-143):
while the monitor is on outside the scheduled window and the motion timeout
has elapsed, turn the monitor off via `_set_monitor_state(False)`. -/
def main_loop_motion_check (s : SysState) (hw : Hw) (now : ℚ) (scheduled : Bool) :
    StepResult :=
  let chk := is_on s.mon hw
  if chk.2 && !scheduled then
    if now - s.last_motion_time > MOTION_TIMEOUT then
      set_monitor_state { s with mon := chk.1 } false hw
    else { sys := { s with mon := chk.1 }, trace := [], exn := false }
  else { sys := { s with mon := chk.1 }, trace := [], exn := false }

theorem pyInt_intCast (n : ℤ) : pyInt ((n : ℚ)) = n := by
  unfold pyInt
  split
  · exact Int.floor_intCast n
  · exact Int.ceil_intCast n

theorem pyInt_of_nonneg (q : ℚ) (h : 0 ≤ q) : pyInt q = ⌊q⌋ := by
  unfold pyInt
  rw [if_pos h]

theorem brightness_from_lux_interior (l : ℚ) (h1 : ¬ l < 10) (h2 : ¬ l > 1000) :
    brightness_from_lux l = 10 + ⌊(l - 10) / (1000 - 10) * 80⌋ := by
  have h10 : (10 : ℚ) ≤ l := not_lt.mp h1
  have harg : (0 : ℚ) ≤ (l - 10) / (1000 - 10) * 80 :=
    mul_nonneg (div_nonneg (by linarith) (by norm_num)) (by norm_num)
  unfold brightness_from_lux
  rw [if_neg h1, if_neg h2]
  show MIN_BRIGHTNESS +
      pyInt ((l - 10) / (1000 - 10) * ((MAX_BRIGHTNESS - MIN_BRIGHTNESS : ℤ) : ℚ)) = _
  rw [show ((MAX_BRIGHTNESS - MIN_BRIGHTNESS : ℤ) : ℚ) = 80 by
      norm_num [MAX_BRIGHTNESS, MIN_BRIGHTNESS]]
  rw [pyInt_of_nonneg _ harg]
  rfl

theorem brightness_interp_le (l : ℚ) (h2 : ¬ l > 1000) :
    (l - 10) / (1000 - 10) * 80 ≤ 80 := by
  have : (l - 10) / (1000 - 10) ≤ 1 := by
    rw [div_le_one (by norm_num)]
    have := not_lt.mp h2
    linarith
  calc (l - 10) / (1000 - 10) * 80 ≤ 1 * 80 :=
        mul_le_mul_of_nonneg_right this (by norm_num)
    _ = 80 := by norm_num

theorem brightness_from_lux_mono (l1 l2 : ℚ) (h : l1 ≤ l2) :
    brightness_from_lux l1 ≤ brightness_from_lux l2 := by
  have hfloor80 : ⌊(80 : ℚ)⌋ = 80 := by
    rw [show (80 : ℚ) = ((80 : ℤ) : ℚ) by norm_num, Int.floor_intCast]
  by_cases h1a : l1 < 10
  · rw [show brightness_from_lux l1 = MIN_BRIGHTNESS by
      unfold brightness_from_lux; rw [if_pos h1a]]
    by_cases h2a : l2 < 10
    · rw [show brightness_from_lux l2 = MIN_BRIGHTNESS by
        unfold brightness_from_lux; rw [if_pos h2a]]
    · by_cases h2b : l2 > 1000
      · rw [show brightness_from_lux l2 = MAX_BRIGHTNESS by
          unfold brightness_from_lux; rw [if_neg h2a, if_pos h2b]]
        norm_num [MIN_BRIGHTNESS, MAX_BRIGHTNESS]
      · rw [brightness_from_lux_interior l2 h2a h2b]
        have h10 : (10 : ℚ) ≤ l2 := not_lt.mp h2a
        have : (0 : ℤ) ≤ ⌊(l2 - 10) / (1000 - 10) * 80⌋ :=
          Int.floor_nonneg.mpr
            (mul_nonneg (div_nonneg (by linarith) (by norm_num)) (by norm_num))
        unfold MIN_BRIGHTNESS
        omega
  · by_cases h1b : l1 > 1000
    · have h2b : l2 > 1000 := lt_of_lt_of_le h1b h
      rw [show brightness_from_lux l1 = MAX_BRIGHTNESS by
          unfold brightness_from_lux; rw [if_neg h1a, if_pos h1b],
        show brightness_from_lux l2 = MAX_BRIGHTNESS by
          unfold brightness_from_lux
          rw [if_neg (by linarith : ¬ l2 < 10), if_pos h2b]]
    · rw [brightness_from_lux_interior l1 h1a h1b]
      by_cases h2b : l2 > 1000
      · rw [show brightness_from_lux l2 = MAX_BRIGHTNESS by
          unfold brightness_from_lux
          rw [if_neg (by intro hc; exact h1a (lt_of_le_of_lt h hc)), if_pos h2b]]
        have hle : ⌊(l1 - 10) / (1000 - 10) * 80⌋ ≤ 80 := by
          rw [← hfloor80]
          exact Int.floor_le_floor (brightness_interp_le l1 h1b)
        unfold MAX_BRIGHTNESS
        omega
      · have h2a : ¬ l2 < 10 := by intro hc; exact h1a (lt_of_le_of_lt h hc)
        rw [brightness_from_lux_interior l2 h2a h2b]
        have hle : ⌊(l1 - 10) / (1000 - 10) * 80⌋ ≤ ⌊(l2 - 10) / (1000 - 10) * 80⌋ := by
          apply Int.floor_le_floor
          apply mul_le_mul_of_nonneg_right _ (by norm_num : (0 : ℚ) ≤ 80)
          rw [div_le_div_iff_of_pos_right (by norm_num)]
          linarith
        omega

/-- C3: the brightness derived from a lux value follows the piecewise map of
`_adjust_brightness` (MIN below 10 lux, MAX above 1000 lux, truncated linear
interpolation between); every brightness command `adjust_brightness` issues
writes that value clamped to `[0, 100]`; the map is monotone in lux; and with
the settings `MIN_BRIGHTNESS = 10`, `MAX_BRIGHTNESS = 90` it sends lux 5 to
10, lux 1500 to 90 and lux 505 to 50. -/
theorem brightness_mapping_correct :
    (∀ lux : ℚ, brightness_from_lux lux =
        if lux < 10 then MIN_BRIGHTNESS
        else if lux > 1000 then MAX_BRIGHTNESS
        else MIN_BRIGHTNESS +
          pyInt ((lux - 10) / (1000 - 10) * ((MAX_BRIGHTNESS - MIN_BRIGHTNESS : ℤ) : ℚ))) ∧
    (∀ (m : MonitorController) (lux : ℚ) (hw : Hw) (a : Act),
        a ∈ (adjust_brightness m (some lux) hw).2.1 →
        a = Act.ddcSetBrightness (max 0 (min 100 (brightness_from_lux lux))) ∧
          0 ≤ max 0 (min 100 (brightness_from_lux lux)) ∧
          max 0 (min 100 (brightness_from_lux lux)) ≤ 100) ∧
    (∀ l1 l2 : ℚ, l1 ≤ l2 → brightness_from_lux l1 ≤ brightness_from_lux l2) ∧
    brightness_from_lux 5 = MIN_BRIGHTNESS ∧
    brightness_from_lux 1500 = MAX_BRIGHTNESS ∧
    brightness_from_lux 505 = 50 := by
  refine ⟨fun lux => rfl, ?_, brightness_from_lux_mono,
    by unfold brightness_from_lux; rw [if_pos (by norm_num)],
    by unfold brightness_from_lux; rw [if_neg (by norm_num), if_pos (by norm_num)],
    ?_⟩
  · intro m lux hw a ha
    simp only [adjust_brightness, set_brightness] at ha
    rw [pyInt_intCast] at ha
    refine ⟨?_, le_max_left _ _, max_le (by norm_num) (min_le_left _ _)⟩
    split at ha
    · simp at ha
    · split at ha <;> simpa using ha
  · rw [brightness_from_lux_interior 505 (by norm_num) (by norm_num),
      show ((505 : ℚ) - 10) / (1000 - 10) * 80 = ((40 : ℤ) : ℚ) by norm_num,
      Int.floor_intCast]
    norm_num

/-- C3 witness: monotonicity applied at lux 5 ≤ 505, together with the
clamping fact at the concrete brightness command issued for lux 5. -/
theorem brightness_mapping_correct_witness :
    brightness_from_lux 5 ≤ brightness_from_lux 505 ∧
      (Act.ddcSetBrightness 10 =
          Act.ddcSetBrightness (max 0 (min 100 (brightness_from_lux 5))) ∧
        0 ≤ max 0 (min 100 (brightness_from_lux 5)) ∧
        max 0 (min 100 (brightness_from_lux 5)) ≤ 100) :=
  ⟨brightness_mapping_correct.2.2.1 5 505 (by norm_num),
    brightness_mapping_correct.2.1 MonitorController.init 5 hwFirstTry
      (Act.ddcSetBrightness 10) (by decide)⟩

/-! ### Helper lemmas about traces and cached state -/

theorem act_power_not_view (a : Act) (h : a.isPowerCmd = true) :
    a.isViewAct = false := by
  cases a <;> simp_all [Act.isPowerCmd, Act.isViewAct]

theorem act_power_not_brightness (a : Act) (h : a.isPowerCmd = true) :
    a.isBrightnessCmd = false := by
  cases a <;> simp_all [Act.isPowerCmd, Act.isBrightnessCmd]

theorem act_power_not_interactive (a : Act) (h : a.isPowerCmd = true) :
    a.isInteractiveShow = false := by
  cases a <;> simp_all [Act.isPowerCmd, Act.isInteractiveShow]

theorem ddc_power_attempts_all (state_code : String) (n : Nat) (rs : List Bool) :
    ∀ a ∈ (ddc_power_attempts state_code n rs).1, a = Act.ddcSetPower state_code := by
  induction n generalizing rs with
  | zero => simp [ddc_power_attempts]
  | succ n ih =>
    unfold ddc_power_attempts
    split
    · simp
    · intro a ha
      rcases List.mem_cons.mp ha with h | h
      · exact h
      · exact ih rs.tail a h

theorem ddc_power_attempts_ne_nil (state_code : String) (n : Nat) (rs : List Bool)
    (hn : n ≠ 0) : (ddc_power_attempts state_code n rs).1 ≠ [] := by
  cases n with
  | zero => exact absurd rfl hn
  | succ n =>
    unfold ddc_power_attempts
    split <;> simp

theorem set_power_trace_all_power (m : MonitorController) (state : Bool) (hw : Hw) :
    ∀ a ∈ (set_power m state hw).2.1, a.isPowerCmd = true := by
  unfold set_power
  by_cases h1 : power_skip_check m (stateCode state)
  · simp [h1]
  · simp only [h1, Bool.false_eq_true, if_false]
    by_cases h2 : (ddc_power_attempts (stateCode state) 3 hw.ddc).2 <;>
      by_cases h3 : hw.alt <;>
        simp only [h2, h3, Bool.false_eq_true, if_true, if_false] <;>
        intro a ha
    · rw [ddc_power_attempts_all (stateCode state) 3 hw.ddc a ha]; rfl
    · rw [ddc_power_attempts_all (stateCode state) 3 hw.ddc a ha]; rfl
    · rcases List.mem_append.mp ha with h | h
      · rw [ddc_power_attempts_all (stateCode state) 3 hw.ddc a h]; rfl
      · rw [show a = Act.altPower state by simpa using h]; rfl
    · rw [ddc_power_attempts_all (stateCode state) 3 hw.ddc a ha]; rfl

theorem set_power_nonskip_trace_ne_nil (m : MonitorController) (state : Bool)
    (hw : Hw) (h : power_skip_check m (stateCode state) = false) :
    (set_power m state hw).2.1 ≠ [] := by
  unfold set_power
  simp only [h, Bool.false_eq_true, if_false]
  have hnn := ddc_power_attempts_ne_nil (stateCode state) 3 hw.ddc (by simp)
  by_cases h2 : (ddc_power_attempts (stateCode state) 3 hw.ddc).2 <;>
    by_cases h3 : hw.alt <;> simp [h2, h3, hnn]

theorem set_power_on_preserves_brightness (m : MonitorController) (hw : Hw) :
    (set_power m true hw).1.last_brightness_set = m.last_brightness_set := by
  unfold set_power
  by_cases h1 : power_skip_check m (stateCode true)
  · simp [h1]
  · simp only [h1, Bool.false_eq_true, if_false]
    by_cases h2 : (ddc_power_attempts (stateCode true) 3 hw.ddc).2 <;>
      by_cases h3 : hw.alt <;> simp [h2, h3, power_applied]

theorem is_on_preserves (m : MonitorController) (hw : Hw) :
    (is_on m hw).1.last_brightness_set = m.last_brightness_set ∧
      (is_on m hw).1.last_power_state_set = m.last_power_state_set := by
  unfold is_on get_power_state
  rcases hmo : m.monitor_is_off with _ | off
  · rcases hq : hw.query with _ | b
    · simp [hmo, hq]
    · cases b <;> simp [hmo, hq]
  · simp [hmo]

theorem is_on_of_known_off (m : MonitorController) (hw : Hw)
    (h : m.monitor_is_off = some true) : is_on m hw = (m, false) := by
  unfold is_on
  rw [h]
  rfl

theorem is_on_of_known_on (m : MonitorController) (hw : Hw)
    (h : m.monitor_is_off = some false) : is_on m hw = (m, true) := by
  unfold is_on
  rw [h]
  rfl

theorem adjust_brightness_some_not_exn (m : MonitorController) (l : ℚ) (hw : Hw) :
    (adjust_brightness m (some l) hw).2.2 = false := by
  simp [adjust_brightness]

theorem adjust_brightness_trace_all_bright (m : MonitorController)
    (ll : Option ℚ) (hw : Hw) :
    ∀ a ∈ (adjust_brightness m ll hw).2.1, a.isBrightnessCmd = true := by
  rcases ll with _ | l
  · simp [adjust_brightness]
  · simp only [adjust_brightness, set_brightness]
    split
    · simp
    · split <;> simp [Act.isBrightnessCmd]

theorem switch_to_dakboard_display (d : DisplayController) :
    (switch_to_dakboard d).1.current_display = some ViewTarget.dakboard := by
  unfold switch_to_dakboard
  split <;> rename_i h
  · simpa using (beq_iff_eq.mp (by simpa using h))
  · rfl

theorem switch_to_dakboard_trace_view (d : DisplayController) :
    ∀ a ∈ (switch_to_dakboard d).2.1, a.isViewAct = true ∧ a.isInteractiveShow = false := by
  unfold switch_to_dakboard
  split
  · simp
  · intro a ha
    rcases List.mem_cons.mp ha with h | h
    · subst h; exact ⟨rfl, rfl⟩
    · rw [show a = Act.hideWindow ViewTarget.homeassistant by simpa using h]
      exact ⟨rfl, rfl⟩

/-! ### Claim C4 -/

/-- C4: when the light-sensor read fails (`read_light` returned `None`), the
power-on sequence performs no brightness update at all: no brightness command
appears in its trace (in particular none derived from lux 0) and the cached
brightness is unchanged.  The `None` is never coerced to zero lux — instead
`_adjust_brightness` raises before reaching `set_brightness`. -/
theorem failed_light_read_no_brightness_update (s : SysState) (hw : Hw)
    (hInit : hw.sensorInit = true) (hFail : hw.light = none) :
    ((set_monitor_state s true hw).trace.all fun a => !a.isBrightnessCmd) = true ∧
      (set_monitor_state s true hw).sys.mon.last_brightness_set =
        s.mon.last_brightness_set := by
  have hll : get_light_level hw = none := by simp [get_light_level, hInit, hFail]
  unfold set_monitor_state
  rw [hll]
  cases hchk : (is_on s.mon hw).2
  · have hexn : (adjust_brightness (set_power (is_on s.mon hw).1 true hw).1 none hw) =
        ((set_power (is_on s.mon hw).1 true hw).1, [], true) := by
      simp [adjust_brightness]
    simp only [hchk, if_true, Bool.not_false, hexn, if_pos]
    constructor
    · rw [List.all_eq_true]
      intro a ha
      simp only [List.append_nil] at ha
      have := set_power_trace_all_power (is_on s.mon hw).1 true hw a ha
      rw [act_power_not_brightness a this]
      rfl
    · rw [set_power_on_preserves_brightness, (is_on_preserves s.mon hw).1]
  · simp only [hchk, Bool.not_true, Bool.false_eq_true, if_false]
    exact ⟨rfl, (is_on_preserves s.mon hw).1⟩

/-- A monitor whose cache records it as off (after a successful power-off). -/
def monOff : MonitorController where
  last_brightness_set := -1
  last_power_state_set := some "4"
  monitor_is_off := some true

/-- A monitor whose cache records it as on. -/
def monOn : MonitorController where
  last_brightness_set := 50
  last_power_state_set := some "1"
  monitor_is_off := some false

def dispDak : DisplayController where
  current_display := some ViewTarget.dakboard
  last_interaction_time := 0

def dispHA : DisplayController where
  current_display := some ViewTarget.homeassistant
  last_interaction_time := 0

def sysOff : SysState where
  mon := monOff
  disp := dispDak
  motion_detected := false
  last_motion_time := 0

def sysOnHA : SysState where
  mon := monOn
  disp := dispHA
  motion_detected := false
  last_motion_time := 0

/-- The hardware environment of a failed light read: the sensor object exists
but `read_light` returned `None`. -/
def hwLightFail : Hw where
  ddc := [true]
  alt := false
  bright := true
  light := none
  sensorInit := true
  query := none

/-- C4 witness: powering on from the off state with a failed light read issues
the power command but no brightness command, and leaves the brightness cache
untouched. -/
theorem failed_light_read_no_brightness_update_witness :
    ((set_monitor_state sysOff true hwLightFail).trace.all
        fun a => !a.isBrightnessCmd) = true ∧
      (set_monitor_state sysOff true hwLightFail).sys.mon.last_brightness_set =
        sysOff.mon.last_brightness_set :=
  failed_light_read_no_brightness_update sysOff hwLightFail rfl rfl

/-! ### Claim C5 -/

theorem act_view_not_power (a : Act) (h : a.isViewAct = true) :
    a.isPowerCmd = false := by
  cases a <;> simp_all [Act.isPowerCmd, Act.isViewAct]

/-- In a trace of the shape `t1 ++ t2` where `t1` holds no power command and
`t2` no view operation, nothing after a power command is a view operation. -/
theorem no_view_after_power (t2 : List Act) (h2 : ∀ b ∈ t2, b.isViewAct = false) :
    ∀ t1 : List Act, (∀ b ∈ t1, b.isPowerCmd = false) →
      ∀ pre a post, t1 ++ t2 = pre ++ a :: post → a.isPowerCmd = true →
        ∀ b ∈ post, b.isViewAct = false := by
  intro t1
  induction t1 with
  | nil =>
    intro _ pre a post heq hpow b hb
    apply h2
    rw [List.nil_append] at heq
    rw [heq]
    exact List.mem_append.mpr (Or.inr (List.mem_cons.mpr (Or.inr hb)))
  | cons v t1 ih =>
    intro h1 pre a post heq hpow b hb
    cases pre with
    | nil =>
      rw [List.nil_append] at heq
      have hva : v = a := (List.cons_eq_cons.mp heq).1
      have : v.isPowerCmd = false := h1 v (List.mem_cons_self v t1)
      rw [hva, hpow] at this
      exact absurd this (by simp)
    | cons p pre =>
      have heq' : t1 ++ t2 = pre ++ a :: post := by
        have := List.cons_eq_cons.mp (by simpa using heq)
        exact this.2
      exact ih (fun c hc => h1 c (List.mem_cons_of_mem v hc)) pre a post heq' hpow b hb

/-- The claim's ordering property for one handler run: whenever a power
command appears in the trace, nothing after it is a view operation and the
display has already been left on the passive (DakBoard) view. -/
def viewBeforePower (r : StepResult) : Prop :=
  ∀ pre a post, r.trace = pre ++ a :: post → a.isPowerCmd = true →
    (∀ b ∈ post, b.isViewAct = false) ∧
      r.sys.disp.current_display = some ViewTarget.dakboard

theorem set_monitor_state_off_view_first (s : SysState) (hw : Hw) :
    viewBeforePower (set_monitor_state s false hw) := by
  unfold set_monitor_state viewBeforePower
  cases hchk : (is_on s.mon hw).2
  · simp only [Bool.false_eq_true, if_false, hchk]
    intro pre a post heq
    exact absurd heq (by simp)
  · simp only [hchk, if_true]
    intro pre a post heq hpow
    refine ⟨?_, switch_to_dakboard_display s.disp⟩
    refine no_view_after_power (set_power (is_on s.mon hw).1 false hw).2.1
      (fun b hb => act_power_not_view b (set_power_trace_all_power _ false hw b hb))
      (switch_to_dakboard s.disp).2.1
      (fun b hb => act_view_not_power b (switch_to_dakboard_trace_view s.disp b hb).1)
      pre a post heq hpow

/-- C5: whenever the coordinator powers the monitor off while it is on —
through `ScheduleChanged(false)` (`_handle_schedule_change`) or through the
motion-timeout check of the main loop — every power command in the trace is
preceded only by the switch to the passive (DakBoard) view, no view operation
follows it, and the display rests on the passive view. -/
theorem power_off_preceded_by_passive_view (s : SysState) (hw : Hw) (now : ℚ)
    (scheduled : Bool) :
    viewBeforePower (handle_schedule_change s false hw) ∧
      viewBeforePower (main_loop_motion_check s hw now scheduled) := by
  constructor
  · exact set_monitor_state_off_view_first s hw
  · unfold main_loop_motion_check
    cases hchk : (is_on s.mon hw).2
    · simp only [hchk, Bool.false_and, Bool.false_eq_true, if_false]
      intro pre a post heq
      exact absurd heq (by simp)
    · cases hs : scheduled
      · simp only [hchk, hs, Bool.not_false, Bool.and_true, if_true]
        split
        · exact set_monitor_state_off_view_first _ hw
        · intro pre a post heq
          exact absurd heq (by simp)
      · simp only [hchk, hs, Bool.not_true, Bool.and_false, Bool.false_eq_true, if_false]
        intro pre a post heq
        exact absurd heq (by simp)

/-- C5 witness: schedule turns off while the monitor is on and Home Assistant
is foreground: the power-off command is the last event and the display ends on
DakBoard. -/
theorem power_off_preceded_by_passive_view_witness :
    (handle_schedule_change sysOnHA false hwFirstTry).sys.disp.current_display =
      some ViewTarget.dakboard :=
  ((power_off_preceded_by_passive_view sysOnHA hwFirstTry 0 false).1
      [Act.showWindow ViewTarget.dakboard, Act.hideWindow ViewTarget.homeassistant]
      (Act.ddcSetPower POWER_STATE_OFF) [] (by decide) (by decide)).2

/-! ### Power-on sequence characterization (shared by C6 and C7) -/

theorem act_bright_not_power (a : Act) (h : a.isBrightnessCmd = true) :
    a.isPowerCmd = false := by
  cases a <;> simp_all [Act.isPowerCmd, Act.isBrightnessCmd]

theorem act_bright_not_interactive (a : Act) (h : a.isBrightnessCmd = true) :
    a.isInteractiveShow = false := by
  cases a <;> simp_all [Act.isInteractiveShow, Act.isBrightnessCmd]

theorem power_skip_check_on_false (m : MonitorController)
    (h : m.monitor_is_off = some true) :
    power_skip_check m (stateCode true) = false := by
  unfold power_skip_check stateCode pyTruthy
  rw [h]
  simp [POWER_STATE_ON, POWER_STATE_OFF]

theorem adjust_brightness_preserves_off (m : MonitorController) (ll : Option ℚ)
    (hw : Hw) : (adjust_brightness m ll hw).1.monitor_is_off = m.monitor_is_off := by
  rcases ll with _ | l
  · rfl
  · simp only [adjust_brightness, set_brightness]
    split
    · rfl
    · split <;> rfl

/-- `_set_monitor_state(True)` from a monitor cached as off, with an available
light value: power-on commands, then the brightness command, then the switch
to DakBoard, no exception. -/
theorem set_monitor_state_on_from_off (s : SysState) (hw : Hw) (l : ℚ)
    (hOff : s.mon.monitor_is_off = some true)
    (hLight : get_light_level hw = some l) :
    set_monitor_state s true hw =
      { sys := { s with
            mon := (adjust_brightness (set_power s.mon true hw).1 (some l) hw).1
            disp := (switch_to_dakboard s.disp).1 },
        trace := (set_power s.mon true hw).2.1 ++
          (adjust_brightness (set_power s.mon true hw).1 (some l) hw).2.1 ++
          (switch_to_dakboard s.disp).2.1,
        exn := false } := by
  unfold set_monitor_state
  rw [hLight, is_on_of_known_off s.mon hw hOff]
  simp [adjust_brightness_some_not_exn]

/-! ### Claim C6 -/

theorem handle_touch_from_dak (d : DisplayController) (now : ℚ)
    (h : d.current_display = some ViewTarget.dakboard) :
    handle_touch d now =
      ({ d with
          current_display := some ViewTarget.homeassistant
          last_interaction_time := now },
        [Act.showWindow ViewTarget.homeassistant, Act.hideWindow ViewTarget.dakboard],
        true) := by
  unfold handle_touch switch_to_homeassistant
  simp [h]

/-- When the cache correctly records the monitor as off (and the light read
yields a value), a touch runs the power-on sequence first and only then
forwards the touch to the display controller: no exception, the interactive
(Home Assistant) view foreground, and a trace that is the power-on sequence —
containing a power command and no interactive-view show — followed by exactly
the PASSIVE→INTERACTIVE window switch.  This covers only the
`monitor_is_off = some true` states: see
`touch_without_power_on_while_off` for the off-monitor state with an unknown
cache, where the ordering the spec asks for does not hold. -/
theorem touch_power_on_before_interactive (s : SysState) (hw : Hw) (now l : ℚ)
    (hOff : s.mon.monitor_is_off = some true)
    (hLight : get_light_level hw = some l) :
    (handle_touch_event s hw now).exn = false ∧
      (handle_touch_event s hw now).sys.disp.current_display =
        some ViewTarget.homeassistant ∧
      ∃ tr1, (handle_touch_event s hw now).trace =
          tr1 ++ [Act.showWindow ViewTarget.homeassistant,
            Act.hideWindow ViewTarget.dakboard] ∧
        (∃ a, a ∈ tr1 ∧ a.isPowerCmd = true) ∧
        ∀ a ∈ tr1, a.isInteractiveShow = false := by
  have hkey := set_monitor_state_on_from_off
    { s with last_motion_time := now } hw l hOff hLight
  unfold handle_touch_event
  dsimp only
  rw [is_on_of_known_off s.mon hw hOff]
  dsimp only
  rw [hkey]
  dsimp only
  rw [handle_touch_from_dak _ now (switch_to_dakboard_display s.disp)]
  dsimp only
  refine ⟨rfl, rfl, (set_power s.mon true hw).2.1 ++
    (adjust_brightness (set_power s.mon true hw).1 (some l) hw).2.1 ++
    (switch_to_dakboard s.disp).2.1, rfl, ?_, ?_⟩
  · obtain ⟨a, ha⟩ := List.exists_mem_of_ne_nil _
      (set_power_nonskip_trace_ne_nil s.mon true hw (power_skip_check_on_false s.mon hOff))
    exact ⟨a, List.mem_append.mpr (Or.inl (List.mem_append.mpr (Or.inl ha))),
      set_power_trace_all_power s.mon true hw a ha⟩
  · intro a ha
    rcases List.mem_append.mp ha with h1 | h1
    · rcases List.mem_append.mp h1 with h2 | h2
      · exact act_power_not_interactive a (set_power_trace_all_power s.mon true hw a h2)
      · exact act_bright_not_interactive a (adjust_brightness_trace_all_bright _ _ hw a h2)
    · exact (switch_to_dakboard_trace_view s.disp a h1).2

/-- Concrete instance of `touch_power_on_before_interactive`: touch from the
cached-off state with DakBoard foreground: no exception, and the handler ends
on the interactive view. -/
theorem touch_power_on_before_interactive_witness :
    (handle_touch_event sysOff hwFirstTry 100).exn = false ∧
      (handle_touch_event sysOff hwFirstTry 100).sys.disp.current_display =
        some ViewTarget.homeassistant :=
  ⟨(touch_power_on_before_interactive sysOff hwFirstTry 100 5 rfl rfl).1,
    (touch_power_on_before_interactive sysOff hwFirstTry 100 5 rfl rfl).2.1⟩

/-! ### Claim C7 -/

theorem ddc_power_attempts_first_success (state_code : String) (rs : List Bool)
    (h : rs.headD false = true) :
    ddc_power_attempts state_code 3 rs = ([Act.ddcSetPower state_code], true) := by
  unfold ddc_power_attempts
  rw [h]
  simp

theorem set_power_first_success (m : MonitorController) (state : Bool) (hw : Hw)
    (hskip : power_skip_check m (stateCode state) = false)
    (h : hw.ddc.headD false = true) :
    set_power m state hw =
      (power_applied m state, [Act.ddcSetPower (stateCode state)], true) := by
  unfold set_power
  rw [hskip, ddc_power_attempts_first_success (stateCode state) hw.ddc h]
  simp

/-- When the cache correctly records the power state, a motion event while the
schedule says off and the monitor is cached as off (with the first hardware
attempt succeeding and the light read available) records the motion timestamp
and runs exactly one power-on — a single power command in the trace — leaving
the monitor cached as on with no exception; any motion event while the monitor
is cached as on only sets the motion flag and refreshes the last-motion
timestamp: no command at all is issued and the foreground view is untouched.
This covers only the `monitor_is_off = some _` states: see
`motion_without_power_on_while_off` for the off-monitor state with an unknown
cache, where no power-on happens at all. -/
theorem motion_event_power_on_once :
    (∀ (s : SysState) (hw : Hw) (now l : ℚ),
        s.mon.monitor_is_off = some true →
        hw.ddc.headD false = true →
        get_light_level hw = some l →
        (handle_motion_event s hw now false).sys.last_motion_time = now ∧
          ((handle_motion_event s hw now false).trace.countP
            fun a => a.isPowerCmd) = 1 ∧
          (handle_motion_event s hw now false).sys.mon.monitor_is_off = some false ∧
          (handle_motion_event s hw now false).exn = false) ∧
    (∀ (s : SysState) (hw : Hw) (now : ℚ) (scheduled : Bool),
        s.mon.monitor_is_off = some false →
        handle_motion_event s hw now scheduled =
          { sys := { s with motion_detected := true, last_motion_time := now },
            trace := [], exn := false }) := by
  constructor
  · intro s hw now l hOff hFirst hLight
    have hkey := set_monitor_state_on_from_off
      { s with motion_detected := true, last_motion_time := now } hw l hOff hLight
    have hpw := set_power_first_success s.mon true hw
      (power_skip_check_on_false s.mon hOff) hFirst
    unfold handle_motion_event
    dsimp only
    rw [is_on_of_known_off s.mon hw hOff]
    dsimp only
    simp only [Bool.not_false, Bool.and_self, if_true]
    rw [hkey]
    dsimp only
    refine ⟨rfl, ?_, ?_, rfl⟩
    · rw [hpw]
      dsimp only
      rw [List.countP_append, List.countP_append]
      have hadj : ((adjust_brightness (power_applied s.mon true) (some l) hw).2.1.countP
          fun a => a.isPowerCmd) = 0 :=
        List.countP_eq_zero.mpr fun a ha => by
          rw [act_bright_not_power a (adjust_brightness_trace_all_bright _ _ hw a ha)]
          exact Bool.false_ne_true
      have hsw : ((switch_to_dakboard s.disp).2.1.countP fun a => a.isPowerCmd) = 0 :=
        List.countP_eq_zero.mpr fun a ha => by
          rw [act_view_not_power a (switch_to_dakboard_trace_view s.disp a ha).1]
          exact Bool.false_ne_true
      rw [hadj, hsw]
      rfl
    · rw [hpw]
      dsimp only
      rw [adjust_brightness_preserves_off]
      rfl
  · intro s hw now scheduled hOn
    unfold handle_motion_event
    dsimp only
    rw [is_on_of_known_on s.mon hw hOn]
    rfl

/-- Concrete instance of `motion_event_power_on_once`: motion from the
cached-off state issues exactly one power command; motion while cached on only
refreshes the flags of the coordinator state. -/
theorem motion_event_power_on_once_witness :
    ((handle_motion_event sysOff hwFirstTry 100 false).trace.countP
        fun a => a.isPowerCmd) = 1 ∧
      handle_motion_event sysOnHA hwFirstTry 100 true =
        { sys := { sysOnHA with motion_detected := true, last_motion_time := 100 },
          trace := [], exn := false } :=
  ⟨(motion_event_power_on_once.1 sysOff hwFirstTry 100 5 rfl rfl rfl).2.1,
    motion_event_power_on_once.2 sysOnHA hwFirstTry 100 true rfl⟩

/-! ### Claim C8 -/

/-- The coordinator state right after startup: the monitor power has never
been commanded, so `monitor_is_off` is still `None`. -/
def sysUnknownPower : SysState where
  mon := MonitorController.init
  disp := dispDak
  motion_detected := false
  last_motion_time := 0

/-- A hardware environment whose power query reports OFF (e.g. ddcutil
printed `DPMS: Standby`). -/
def hwQueryOff : Hw where
  ddc := [true]
  alt := false
  bright := true
  light := some 5
  sensorInit := true
  query := some false

/-- C8 (code bug): a light sample of 5 lux arriving while the cached power
state is unknown and the hardware query reports the monitor OFF still issues a
brightness command: `is_on` returns the string `"OFF"`, which is truthy, so
`_handle_light_change` adjusts the brightness of a monitor the controller
itself has just cached as off (`monitor_is_off = some true`). -/
theorem light_sample_applied_while_monitor_off :
    (handle_light_change sysUnknownPower 5 hwQueryOff).sys.mon.monitor_is_off =
        some true ∧
      (handle_light_change sysUnknownPower 5 hwQueryOff).trace =
        [Act.ddcSetBrightness 10] := by
  decide

/-- C6 (code bug): a touch arriving while the monitor power is off need not be
preceded by a power-on.  With the startup cache (`monitor_is_off = None`) and
the hardware query reporting OFF, `is_on` returns the truthy string `"OFF"`,
so `_handle_touch_event` skips the power-on branch (main.py:391) and forwards
the touch directly: the view switches PASSIVE→INTERACTIVE while the controller
itself has just cached the monitor as off, and the trace holds zero power
commands — the power-on sequence never runs, let alone first. -/
theorem touch_without_power_on_while_off :
    (handle_touch_event sysUnknownPower hwQueryOff 100).sys.mon.monitor_is_off =
        some true ∧
      (handle_touch_event sysUnknownPower hwQueryOff 100).trace =
        [Act.showWindow ViewTarget.homeassistant, Act.hideWindow ViewTarget.dakboard] ∧
      ((handle_touch_event sysUnknownPower hwQueryOff 100).trace.countP
          fun a => a.isPowerCmd) = 0 ∧
      (handle_touch_event sysUnknownPower hwQueryOff 100).sys.disp.current_display =
        some ViewTarget.homeassistant := by
  decide

/-- C7 (code bug): a motion event while the schedule says off and the monitor
power is off need not execute a power-on sequence.  In the same state —
startup cache `None`, hardware query reporting OFF — `is_on` returns the
truthy string `"OFF"`, the guard at main.py:214 is false, and the handler only
refreshes the motion flag and timestamp: the trace is empty, so zero power-on
sequences execute instead of the claimed exactly one, and no override power-on
begins. -/
theorem motion_without_power_on_while_off :
    (handle_motion_event sysUnknownPower hwQueryOff 100 false).sys.mon.monitor_is_off =
        some true ∧
      (handle_motion_event sysUnknownPower hwQueryOff 100 false).trace = [] ∧
      (handle_motion_event sysUnknownPower hwQueryOff 100 false).sys.last_motion_time =
        100 := by
  decide

end HallwayDisplay
